import Mathlib

/-!
Shallow embedding of the `goapigateway` repository (Go) and proofs about it.

Source files embedded: `limit.go` (token-bucket rate limiter and the
rate-limit middleware), `main.go` (middleware chaining, logging, timeout,
CORS, auth, proxy wiring), `config.go` (configuration defaults).

Modelling conventions:
* Go `time.Time` / `time.Duration` are modelled as natural numbers of
  nanoseconds (`Time`).  Go reads time through the monotonic clock, so the
  elapsed duration `now.Sub(LastCheck)` is nonnegative; natural-number
  subtraction reflects that (a clock that went backwards yields elapsed 0,
  which, like a negative Go duration, produces no refill).
* Go `int` fields are modelled as `Int` (overflow ignored: all quantities
  in scope are tiny).
* The float computation `int(duration.Seconds() * float64(Rate) /
  interval.Seconds())` in `Allow` is modelled in exact arithmetic as
  `(durationNs * Rate) / intervalNs`; the two coincide wherever the product
  is nonnegative and within float64's exactly-representable integer range,
  which covers every state reachable from the constructors used in the
  program.
* Handlers mutate an `http.ResponseWriter`; we model a handler as a pure
  state transformer on a `Response` record.
-/

namespace GoGateway

/-- Nanoseconds since some epoch, as read from the monotonic clock. -/
abbrev Time := Nat

/-- Go `time.Second` expressed in nanoseconds. -/
def second : Nat := 1000000000

/-- `limit.go` lines 17-24: the token-bucket limiter state.
`mu : sync.Mutex` is not part of the functional state; its effect is that
`Allow` calls are serialized, which the sequential model reflects. -/
structure TokenBucket where
  Cap : Int
  Rate : Int
  interval : Nat
  Tokens : Int
  LastCheck : Time
deriving Repr, DecidableEq

/-- `limit.go` lines 30-39: `NewTokenBucket(cap, rate)`.  The Go code takes
`LastCheck = time.Now()`; the construction instant is the parameter `now`. -/
def NewTokenBucket (cap rate : Int) (now : Time) : TokenBucket :=
  { Cap := cap
    Rate := rate
    interval := second
    Tokens := cap
    LastCheck := now }

/-- `limit.go` line 51: the refill amount
`int(duration.Seconds() * float64(tb.Rate) / tb.interval.Seconds())`,
in exact arithmetic: `(durationNs / 1e9) * Rate / (intervalNs / 1e9)
= durationNs * Rate / intervalNs`, truncated to an integer. -/
def TokenBucket.refillAmount (tb : TokenBucket) (now : Time) : Int :=
  ((now - tb.LastCheck : Nat) : Int) * tb.Rate / (tb.interval : Int)

/-- `limit.go` lines 49-57: the refill half of `Allow` — top up, capped at
`Cap`, and advance `LastCheck`, but only when the computed amount is
positive. -/
def TokenBucket.refillStep (tb : TokenBucket) (now : Time) : TokenBucket :=
  let tokens := tb.refillAmount now
  if tokens > 0 then
    { tb with Tokens := min (tb.Tokens + tokens) tb.Cap, LastCheck := now }
  else
    tb

/-- `limit.go` lines 44-65: `Allow()` — refill, then take one token if any
remains.  Returns the admission verdict and the successor state. -/
def TokenBucket.Allow (tb : TokenBucket) (now : Time) : Bool × TokenBucket :=
  let tb1 := tb.refillStep now
  if tb1.Tokens > 0 then (true, { tb1 with Tokens := tb1.Tokens - 1 })
  else (false, tb1)

/-- Run `n` consecutive `Allow()` calls at one instant `now` (the lock
serializes them); returns the final state and the list of verdicts. -/
def TokenBucket.allowN (tb : TokenBucket) (now : Time) : Nat → TokenBucket × List Bool
  | 0 => (tb, [])
  | n + 1 =>
    let r := tb.Allow now
    let rest := r.2.allowN now n
    (rest.1, r.1 :: rest.2)

/-- Run one `Allow()` call per listed instant; returns the trace of
post-call states. -/
def TokenBucket.runTrace (tb : TokenBucket) : List Time → List TokenBucket
  | [] => []
  | t :: ts =>
    let tb1 := (tb.Allow t).2
    tb1 :: tb1.runTrace ts

/-! Helper lemmas about the token bucket. -/

/-- The refill amount depends only on `LastCheck`, `Rate` and `interval`,
not on the token count. -/
lemma refillAmount_set_tokens (tb : TokenBucket) (x : Int) (now : Time) :
    ({ tb with Tokens := x } : TokenBucket).refillAmount now = tb.refillAmount now := rfl

/-- With zero elapsed time the computed refill amount is zero. -/
lemma refillAmount_self (tb : TokenBucket) : tb.refillAmount tb.LastCheck = 0 := by
  simp [TokenBucket.refillAmount]

/-- When the computed refill amount is not positive, the refill step is a
no-op. -/
lemma refillStep_of_no_refill (tb : TokenBucket) (now : Time)
    (h : tb.refillAmount now ≤ 0) : tb.refillStep now = tb := by
  unfold TokenBucket.refillStep
  rw [if_neg (by omega)]

/-- Verdict list of `n` simultaneous `Allow()` calls when no refill can
happen: the first `Tokens` calls succeed, the rest fail. -/
lemma allowN_of_no_refill (now : Time) :
    ∀ (n : Nat) (tb : TokenBucket), tb.refillAmount now ≤ 0 →
      (tb.allowN now n).2 =
        List.replicate (min n tb.Tokens.toNat) true ++
          List.replicate (n - tb.Tokens.toNat) false
  | 0, tb, _ => by simp [TokenBucket.allowN]
  | n + 1, tb, h => by
    by_cases hT : tb.Tokens > 0
    · have hAllow : tb.Allow now = (true, { tb with Tokens := tb.Tokens - 1 }) := by
        unfold TokenBucket.Allow
        rw [refillStep_of_no_refill tb now h, if_pos hT]
      have h2 : ({ tb with Tokens := tb.Tokens - 1 } : TokenBucket).refillAmount now ≤ 0 := by
        rw [refillAmount_set_tokens]; exact h
      have IH := allowN_of_no_refill now n { tb with Tokens := tb.Tokens - 1 } h2
      unfold TokenBucket.allowN
      rw [hAllow]
      simp only [IH]
      rw [show min (n + 1) tb.Tokens.toNat = min n (tb.Tokens - 1).toNat + 1 by omega,
        show (n + 1) - tb.Tokens.toNat = n - (tb.Tokens - 1).toNat by omega,
        List.replicate_succ, List.cons_append]
    · have hAllow : tb.Allow now = (false, tb) := by
        unfold TokenBucket.Allow
        rw [refillStep_of_no_refill tb now h, if_neg hT]
      have IH := allowN_of_no_refill now n tb h
      unfold TokenBucket.allowN
      rw [hAllow]
      simp only [IH]
      rw [show min (n + 1) tb.Tokens.toNat = 0 by omega,
        show min n tb.Tokens.toNat = 0 by omega,
        show (n + 1) - tb.Tokens.toNat = (n - tb.Tokens.toNat) + 1 by omega,
        List.replicate_succ]
      simp

/-- One `Allow()` call preserves `0 ≤ Tokens ≤ Cap` and never changes the
capacity. -/
lemma Allow_inv (tb : TokenBucket) (t : Time)
    (h0 : 0 ≤ tb.Tokens) (h1 : tb.Tokens ≤ tb.Cap) :
    0 ≤ ((tb.Allow t).2).Tokens ∧ ((tb.Allow t).2).Tokens ≤ ((tb.Allow t).2).Cap ∧
      ((tb.Allow t).2).Cap = tb.Cap := by
  obtain ⟨cap, rate, itv, tok, last⟩ := tb
  simp only [TokenBucket.Allow, TokenBucket.refillStep] at *
  split_ifs <;> simp_all <;> omega

/-- Every state in the trace of `Allow()` calls satisfies
`0 ≤ Tokens ≤ Cap`, with the capacity pinned to the initial one. -/
lemma runTrace_inv :
    ∀ (ts : List Time) (tb : TokenBucket), 0 ≤ tb.Tokens → tb.Tokens ≤ tb.Cap →
      ∀ s ∈ tb.runTrace ts, (0 ≤ s.Tokens ∧ s.Tokens ≤ s.Cap) ∧ s.Cap = tb.Cap
  | [], _, _, _ => by simp [TokenBucket.runTrace]
  | t :: ts, tb, h0, h1 => by
    intro s hs
    obtain ⟨hi0, hi1, hic⟩ := Allow_inv tb t h0 h1
    simp only [TokenBucket.runTrace, List.mem_cons] at hs
    rcases hs with rfl | hs
    · exact ⟨⟨hi0, hi1⟩, hic⟩
    · have := runTrace_inv ts ((tb.Allow t).2) hi0 (by omega) s hs
      exact ⟨this.1, this.2.trans hic⟩

/-! Claims about the token bucket (`limit.go`). -/

/-- Claim C1: a bucket built by `NewTokenBucket` with capacity `C > 0` and
rate `R > 0`, queried with no time elapsed since construction, answers
`true` to the first `C` consecutive `Allow()` calls and `false` to the
`(C+1)`-th. -/
theorem claim_C1 (C R : Nat) (t0 : Time) (hC : 0 < C) (hR : 0 < R) :
    ((NewTokenBucket (C : Int) (R : Int) t0).allowN t0 (C + 1)).2 =
      List.replicate C true ++ [false] := by
  have h : (NewTokenBucket (C : Int) (R : Int) t0).refillAmount t0 ≤ 0 := by
    have := refillAmount_self (NewTokenBucket (C : Int) (R : Int) t0)
    simpa [NewTokenBucket] using le_of_eq this
  rw [allowN_of_no_refill t0 (C + 1) _ h]
  have htok : (NewTokenBucket (C : Int) (R : Int) t0).Tokens.toNat = C := by
    simp [NewTokenBucket]
  rw [htok, show min (C + 1) C = C by omega, show C + 1 - C = 1 by omega]
  simp

/-- Evaluation of claim C1 at capacity 2, rate 1. -/
theorem claim_C1_witness :
    0 < 2 ∧ 0 < 1 ∧
      ((NewTokenBucket (2 : Int) (1 : Int) 0).allowN 0 3).2 =
        List.replicate 2 true ++ [false] :=
  ⟨by decide, by decide, claim_C1 2 1 0 (by decide) (by decide)⟩

/-- Claim C2: for a bucket constructed with capacity `C > 0`, the predicate
`0 ≤ tokens ≤ C` holds after construction and before and after each of an
arbitrary sequence of `Allow()` calls, at arbitrary clock instants and
however much time elapses. -/
theorem claim_C2 (cap rate : Int) (t0 : Time) (ts : List Time) (hcap : 0 < cap) :
    (0 ≤ (NewTokenBucket cap rate t0).Tokens ∧ (NewTokenBucket cap rate t0).Tokens ≤ cap) ∧
      ∀ s ∈ (NewTokenBucket cap rate t0).runTrace ts, 0 ≤ s.Tokens ∧ s.Tokens ≤ cap := by
  have h0 : 0 ≤ (NewTokenBucket cap rate t0).Tokens := le_of_lt hcap
  have h1 : (NewTokenBucket cap rate t0).Tokens ≤ (NewTokenBucket cap rate t0).Cap := le_refl _
  refine ⟨⟨h0, h1⟩, fun s hs => ?_⟩
  obtain ⟨⟨hi0, hi1⟩, hic⟩ := runTrace_inv ts (NewTokenBucket cap rate t0) h0 h1 s hs
  exact ⟨hi0, by rw [← show (NewTokenBucket cap rate t0).Cap = cap from rfl]; omega⟩

/-- Evaluation of claim C2 at capacity 2, rate 1, with calls at 0s, 5s
and 0.5s. -/
theorem claim_C2_witness :
    (0 : Int) < 2 ∧
      ((0 ≤ (NewTokenBucket 2 1 0).Tokens ∧ (NewTokenBucket 2 1 0).Tokens ≤ 2) ∧
        ∀ s ∈ (NewTokenBucket 2 1 0).runTrace [0, 5000000000, 5500000000],
          0 ≤ s.Tokens ∧ s.Tokens ≤ 2) :=
  ⟨by decide, claim_C2 2 1 0 [0, 5000000000, 5500000000] (by decide)⟩

/-- Claim C3: in every `Allow()` call on a bucket with the constructed
1-second interval and a nonnegative rate, the refill amount is the floor of
elapsed seconds times the rate; when positive, the refill step sets
`tokens := min (tokens + amount) capacity` and advances `lastRefill` to
`now`; when zero, the refill step changes nothing, and over the whole call
only the subsequent decrement can change the token count. -/
theorem claim_C3 (tb : TokenBucket) (now : Time)
    (hI : tb.interval = second) (hR : 0 ≤ tb.Rate) :
    (tb.refillAmount now =
      ⌊((now - tb.LastCheck : Nat) : ℚ) / (second : ℚ) * (tb.Rate : ℚ)⌋) ∧
    (0 < tb.refillAmount now →
      (tb.refillStep now).Tokens = min (tb.Tokens + tb.refillAmount now) tb.Cap ∧
        (tb.refillStep now).LastCheck = now) ∧
    (tb.refillAmount now = 0 → tb.refillStep now = tb) ∧
    (tb.refillAmount now = 0 →
      ((tb.Allow now).2).LastCheck = tb.LastCheck ∧
        (((tb.Allow now).2).Tokens = tb.Tokens - 1 ∧ (tb.Allow now).1 = true ∨
          ((tb.Allow now).2).Tokens = tb.Tokens ∧ (tb.Allow now).1 = false)) := by
  refine ⟨?_, ?_, ?_, ?_⟩
  · rw [show ((now - tb.LastCheck : Nat) : ℚ) / (second : ℚ) * (tb.Rate : ℚ) =
        ((((now - tb.LastCheck : Nat) : Int) * tb.Rate : Int) : ℚ) / ((second : Nat) : ℚ) by
      push_cast; ring]
    rw [Rat.floor_intCast_div_natCast]
    rw [TokenBucket.refillAmount, hI]
  · intro hpos
    unfold TokenBucket.refillStep
    rw [if_pos hpos]
    exact ⟨rfl, rfl⟩
  · intro hz
    exact refillStep_of_no_refill tb now (le_of_eq hz)
  · intro hz
    unfold TokenBucket.Allow
    rw [refillStep_of_no_refill tb now (le_of_eq hz)]
    by_cases hT : tb.Tokens > 0
    · rw [if_pos hT]
      exact ⟨rfl, Or.inl ⟨rfl, rfl⟩⟩
    · rw [if_neg hT]
      exact ⟨rfl, Or.inr ⟨rfl, rfl⟩⟩

/-- Evaluation of claim C3 on a bucket with capacity 5, rate 2, queried
1.5 seconds after construction (refill amount 3). -/
theorem claim_C3_witness :
    (NewTokenBucket 5 2 0).interval = second ∧ (0 : Int) ≤ (NewTokenBucket 5 2 0).Rate ∧
      (((NewTokenBucket 5 2 0).refillAmount 1500000000 =
        ⌊((1500000000 - (NewTokenBucket 5 2 0).LastCheck : Nat) : ℚ) / (second : ℚ) *
          ((NewTokenBucket 5 2 0).Rate : ℚ)⌋) ∧
      (0 < (NewTokenBucket 5 2 0).refillAmount 1500000000 →
        ((NewTokenBucket 5 2 0).refillStep 1500000000).Tokens =
            min ((NewTokenBucket 5 2 0).Tokens + (NewTokenBucket 5 2 0).refillAmount 1500000000)
              (NewTokenBucket 5 2 0).Cap ∧
          ((NewTokenBucket 5 2 0).refillStep 1500000000).LastCheck = 1500000000) ∧
      ((NewTokenBucket 5 2 0).refillAmount 1500000000 = 0 →
        (NewTokenBucket 5 2 0).refillStep 1500000000 = NewTokenBucket 5 2 0) ∧
      ((NewTokenBucket 5 2 0).refillAmount 1500000000 = 0 →
        (((NewTokenBucket 5 2 0).Allow 1500000000).2).LastCheck =
            (NewTokenBucket 5 2 0).LastCheck ∧
          ((((NewTokenBucket 5 2 0).Allow 1500000000).2).Tokens =
              (NewTokenBucket 5 2 0).Tokens - 1 ∧
              ((NewTokenBucket 5 2 0).Allow 1500000000).1 = true ∨
            (((NewTokenBucket 5 2 0).Allow 1500000000).2).Tokens =
                (NewTokenBucket 5 2 0).Tokens ∧
              ((NewTokenBucket 5 2 0).Allow 1500000000).1 = false))) :=
  ⟨rfl, by decide, claim_C3 (NewTokenBucket 5 2 0) 1500000000 rfl (by decide)⟩

/-- Claim C10: `N` `Allow()` calls against a bucket holding `T` tokens,
serialized by the mutex at one instant with no refill possible, admit
exactly `min N T` callers; in particular never more than `T` tokens are
granted (no token is granted twice). -/
theorem claim_C10 (tb : TokenBucket) (now : Time) (N T : Nat)
    (hT : tb.Tokens = (T : Int)) (hnorefill : tb.refillAmount now ≤ 0) :
    ((tb.allowN now N).2).count true = min N T ∧
      ((tb.allowN now N).2).count true ≤ T := by
  have hcount : ((tb.allowN now N).2).count true = min N T := by
    rw [allowN_of_no_refill now N tb hnorefill]
    simp [List.count_append, List.count_replicate, hT]
  exact ⟨hcount, by omega⟩

/-- Evaluation of claim C10 with 5 simultaneous callers against 3 tokens:
exactly 3 are admitted. -/
theorem claim_C10_witness :
    ({ Cap := 4, Rate := 1, interval := second, Tokens := 3, LastCheck := 7 } :
        TokenBucket).Tokens = (3 : Int) ∧
      ({ Cap := 4, Rate := 1, interval := second, Tokens := 3, LastCheck := 7 } :
        TokenBucket).refillAmount 7 ≤ 0 ∧
      ((({ Cap := 4, Rate := 1, interval := second, Tokens := 3, LastCheck := 7 } :
          TokenBucket).allowN 7 5).2).count true = min 5 3 ∧
      ((({ Cap := 4, Rate := 1, interval := second, Tokens := 3, LastCheck := 7 } :
          TokenBucket).allowN 7 5).2).count true ≤ 3 :=
  ⟨by decide, by decide,
    (claim_C10 _ 7 5 3 (by decide) (by decide)).1, (claim_C10 _ 7 5 3 (by decide) (by decide)).2⟩

/-! HTTP model: handlers as pure state transformers on a response record. -/

/-- The parts of `*http.Request` the embedded code reads. -/
structure Request where
  method : String
  path : String
  headers : List (String × String)
deriving Repr, DecidableEq

/-- The observable state of an `http.ResponseWriter`: status written,
response headers, body text.  `status = 0` stands for the Go zero value,
before any `WriteHeader` call. -/
structure Response where
  status : Int
  headers : List (String × String)
  body : String
deriving Repr, DecidableEq

/-- A fresh response writer. -/
def Response.empty : Response := { status := 0, headers := [], body := "" }

/-- `w.Header().Set(key, value)`: replace any previous value of `key`. -/
def Response.setHeader (w : Response) (key value : String) : Response :=
  { w with headers := (key, value) :: w.headers.filter (fun p => p.1 ≠ key) }

/-- `w.WriteHeader(code)`. -/
def Response.writeHeader (w : Response) (code : Int) : Response :=
  { w with status := code }

/-- `http.Error(w, msg, code)`: plain-text content type, status, body. -/
def httpError (w : Response) (msg : String) (code : Int) : Response :=
  { (w.setHeader "Content-Type" "text/plain; charset=utf-8") with
      status := code, body := msg }

/-- `http.HandlerFunc`, as a pure transformer of the response state. -/
abbrev Handler := Request → Response → Response

/-- `main.go` line 24: `type Middleware func(http.HandlerFunc) http.HandlerFunc`. -/
abbrev Middleware := Handler → Handler

/-- `main.go` lines 198-204: `ChainMiddleware(handler, middlewares...)` —
the loop `for i := len(middlewares) - 1; i >= 0; i-- { handler =
middlewares[i](handler) }`, i.e. a left fold over the reversed list. -/
def ChainMiddleware (handler : Handler) (middlewares : List Middleware) : Handler :=
  middlewares.reverse.foldl (fun h m => m h) handler

/-! The rate-limit middleware (`limit.go`). -/

/-- `Route` as consumed by `RateLimitMiddleware` (`limit.go` uses
`route.Path` and `route.QPS`; `config.go` lines 21-25 declare the struct
with `Path`, `Target`, `QPS`). -/
structure Route where
  Path : String
  Target : String
  QPS : Int
deriving Repr, DecidableEq

/-- `limit.go` lines 74-81: the limiter-construction loop of
`RateLimitMiddleware`.  Note the `break`: the loop stops right after the
first route with positive QPS, so at most one dedicated bucket is built. -/
def buildRouteLimiters (rotes : List Route) (t0 : Time) : List (String × TokenBucket) :=
  match rotes with
  | [] => []
  | route :: rest =>
    if route.QPS > 0 then [(route.Path, NewTokenBucket (route.QPS * 2) route.QPS t0)]
    else buildRouteLimiters rest t0

/-- `limit.go` line 68: `var globalLimiter = NewTokenBucket(1, 1)`,
initialized at package start (instant `t0`). -/
def globalLimiter (t0 : Time) : TokenBucket := NewTokenBucket 1 1 t0

/-- `limit.go` lines 86-99: pick the dedicated limiter whose key equals the
request path, else the global one.  (Go iterates the map; keys are unique,
so the iteration order cannot change the outcome.) -/
def selectLimiter (routeLimiters : List (String × TokenBucket)) (global : TokenBucket)
    (path : String) : TokenBucket :=
  match routeLimiters.find? (fun p => p.1 == path) with
  | some p => p.2
  | none => global

/-- `limit.go` lines 84-112: the per-request logic of the middleware
returned by `RateLimitMiddleware`, over an already-built limiter table.
`now` is the instant of the `Allow()` call. -/
def rateLimitWrap (routeLimiters : List (String × TokenBucket)) (global : TokenBucket)
    (now : Time) : Middleware :=
  fun next r w =>
    let limiter := selectLimiter routeLimiters global r.path
    if (limiter.Allow now).1 then next r w
    else httpError (w.setHeader "Retry-After" "1") "429 Too Many Requests" 429

/-- `limit.go` lines 73-113: `RateLimitMiddleware(rotes)` — build the
limiter table at construction instant `t0`, then serve requests. -/
def RateLimitMiddleware (rotes : List Route) (t0 now : Time) : Middleware :=
  rateLimitWrap (buildRouteLimiters rotes t0) (globalLimiter t0) now

/-! Configuration (`config.go`). -/

/-- `config.go` lines 30-32: `GlobalRateLimitConfig`. -/
structure GlobalRateLimitConfig where
  Cap : Int
  Rate : Int
deriving Repr, DecidableEq

/-- `config.go` lines 8-15: `Config`.  `Timeout : time.Duration` is
nanoseconds.  Route entries (`RouteConfig`) carry the same three fields as
`Route`. -/
structure Config where
  Port : String
  ApiKeys : List String
  NoAuthRoutes : List String
  Routes : List Route
  GlobalRateLimit : GlobalRateLimitConfig
  Timeout : Nat
deriving Repr, DecidableEq

/-- `config.go` lines 54-68: the default-filling step of `loadConfig`
(the file read and YAML decode are external collaborators). -/
def loadConfigDefaults (config : Config) : Config :=
  let config1 := if config.Port = "" then { config with Port := ":8082" } else config
  let config2 := if config1.GlobalRateLimit.Cap = 0 then
      { config1 with GlobalRateLimit := { config1.GlobalRateLimit with Cap := 3 } }
    else config1
  let config3 := if config2.GlobalRateLimit.Rate = 0 then
      { config2 with GlobalRateLimit := { config2.GlobalRateLimit with Rate := 1 } }
    else config2
  if config3.Timeout = 0 then { config3 with Timeout := second } else config3

/-! Claims about the rate-limit stage and middleware composition. -/

/-- Claim C4 — evaluation at the failing input.  With two QPS-positive
routes `/a` (QPS 1) and `/b` (QPS 2), the construction loop of
`RateLimitMiddleware` builds a dedicated bucket only for `/a` (capacity
`QPS*2 = 2`, rate 1): the `break` at `limit.go` line 79 exits after the
first QPS-positive route, so `/b` has no dedicated bucket and falls back to
the global limiter, contradicting the claim that every QPS-positive route
gets its own bucket. -/
theorem claim_C4_bug :
    buildRouteLimiters [⟨"/a", "http://a", 1⟩, ⟨"/b", "http://b", 2⟩] 0 =
        [("/a", NewTokenBucket 2 1 0)] ∧
      (⟨"/b", "http://b", 2⟩ : Route).QPS > 0 ∧
      (buildRouteLimiters [⟨"/a", "http://a", 1⟩, ⟨"/b", "http://b", 2⟩] 0).find?
          (fun p => p.1 == "/b") = none ∧
      selectLimiter (buildRouteLimiters [⟨"/a", "http://a", 1⟩, ⟨"/b", "http://b", 2⟩] 0)
          (globalLimiter 0) "/b" = globalLimiter 0 := by
  decide

/-- Claim C5: in the rate-limit stage, when the selected bucket's `Allow()`
returns false the response is status 429 with header `Retry-After: 1` and
the wrapped handler is never invoked (the outcome is the same for every
`next`); when `Allow()` returns true the stage is exactly `next`. -/
theorem claim_C5 (routeLimiters : List (String × TokenBucket)) (global : TokenBucket)
    (now : Time) (next : Handler) (r : Request) (w : Response) :
    (((selectLimiter routeLimiters global r.path).Allow now).1 = false →
      (rateLimitWrap routeLimiters global now next r w).status = 429 ∧
        ("Retry-After", "1") ∈ (rateLimitWrap routeLimiters global now next r w).headers ∧
        ∀ next' : Handler,
          rateLimitWrap routeLimiters global now next r w =
            rateLimitWrap routeLimiters global now next' r w) ∧
    (((selectLimiter routeLimiters global r.path).Allow now).1 = true →
      rateLimitWrap routeLimiters global now next r w = next r w) := by
  constructor
  · intro h
    refine ⟨?_, ?_, ?_⟩ <;>
      simp [rateLimitWrap, h, httpError, Response.setHeader]
  · intro h
    simp [rateLimitWrap, h]

/-- A bucket with no token left, for concrete evaluations. -/
def drainedBucket : TokenBucket :=
  { Cap := 1, Rate := 1, interval := second, Tokens := 0, LastCheck := 0 }

/-- A handler that writes status 200, for concrete evaluations. -/
def okHandler : Handler := fun _ w => w.writeHeader 200

/-- A sample request, for concrete evaluations. -/
def sampleReq : Request := { method := "GET", path := "/p", headers := [] }

/-- Evaluation of claim C5 on a drained bucket: `Allow()` is false there,
and the stage answers 429 with `Retry-After: 1`. -/
theorem claim_C5_witness :
    ((selectLimiter [] drainedBucket sampleReq.path).Allow 0).1 = false ∧
      (rateLimitWrap [] drainedBucket 0 okHandler sampleReq Response.empty).status = 429 ∧
      ("Retry-After", "1") ∈
        (rateLimitWrap [] drainedBucket 0 okHandler sampleReq Response.empty).headers :=
  ⟨by decide,
    ((claim_C5 [] drainedBucket 0 okHandler sampleReq Response.empty).1 (by decide)).1,
    ((claim_C5 [] drainedBucket 0 okHandler sampleReq Response.empty).1 (by decide)).2.1⟩

/-- Claim C6: `ChainMiddleware(h, m1, ..., mn)` equals the right fold
`m1 (m2 (... (mn h)))`; unrolling one step shows the first-listed
middleware ends up outermost, so its logic runs first on every request. -/
theorem claim_C6 (handler : Handler) (middlewares : List Middleware) :
    ChainMiddleware handler middlewares =
        middlewares.foldr (fun m h => m h) handler ∧
      ∀ (m : Middleware) (ms : List Middleware),
        ChainMiddleware handler (m :: ms) = m (ChainMiddleware handler ms) := by
  have key : ∀ ms : List Middleware, ChainMiddleware handler ms =
      ms.foldr (fun m h => m h) handler := fun ms => by
    unfold ChainMiddleware
    exact List.foldl_reverse ms (fun h m => m h) handler
  exact ⟨key middlewares, fun m ms => by rw [key (m :: ms), key ms, List.foldr_cons]⟩

/-- Claim C9: a request path with no dedicated limiter is decided by the
shared fallback bucket `globalLimiter`, which is hardcoded with capacity 1
and rate 1; the configuration's `GlobalRateLimit` (defaulted to cap 3,
rate 1 by `loadConfig`) is not an input of `RateLimitMiddleware`, so
changing it changes no admission decision. -/
theorem claim_C9 (t0 now : Time) (rl : List (String × TokenBucket)) (path : String)
    (h : rl.find? (fun p => p.1 == path) = none) :
    selectLimiter rl (globalLimiter t0) path = globalLimiter t0 ∧
      (globalLimiter t0).Cap = 1 ∧ (globalLimiter t0).Rate = 1 ∧
      (∀ c : Config, c.GlobalRateLimit.Cap = 0 → c.GlobalRateLimit.Rate = 0 →
        (loadConfigDefaults c).GlobalRateLimit = ⟨3, 1⟩) ∧
      ∀ (c : Config) (g : GlobalRateLimitConfig),
        RateLimitMiddleware ({ c with GlobalRateLimit := g }).Routes t0 now =
          RateLimitMiddleware c.Routes t0 now := by
  refine ⟨?_, rfl, rfl, ?_, fun c g => rfl⟩
  · unfold selectLimiter
    rw [h]
  · intro c hcap hrate
    obtain ⟨port, keys, noauth, routes, ⟨gcap, grate⟩, tmo⟩ := c
    simp only at hcap hrate
    subst hcap hrate
    simp only [loadConfigDefaults]
    split_ifs <;> simp_all

/-- Evaluation of claim C9 at an empty limiter table and path `/x`. -/
theorem claim_C9_witness :
    selectLimiter [] (globalLimiter 0) "/x" = globalLimiter 0 ∧
      (globalLimiter 0).Cap = 1 ∧ (globalLimiter 0).Rate = 1 ∧
      (∀ c : Config, c.GlobalRateLimit.Cap = 0 → c.GlobalRateLimit.Rate = 0 →
        (loadConfigDefaults c).GlobalRateLimit = ⟨3, 1⟩) ∧
      ∀ (c : Config) (g : GlobalRateLimitConfig),
        RateLimitMiddleware ({ c with GlobalRateLimit := g }).Routes 0 0 =
          RateLimitMiddleware c.Routes 0 0 :=
  claim_C9 0 0 [] "/x" rfl

/-! The logging stage (`main.go`). -/

/-- `main.go` lines 13-16: `ResponseWriterWrapper` — wraps a writer and is
meant to capture the status code.  `StatusCode` starts at the Go zero
value 0. -/
structure ResponseWriterWrapper where
  StatusCode : Int
deriving Repr, DecidableEq

/-- `main.go` lines 19-22: `WriteHeader` on the wrapper records the status
code and forwards the call to the wrapped writer. -/
def ResponseWriterWrapper.WriteHeader (wr : ResponseWriterWrapper) (w : Response)
    (statusCode : Int) : ResponseWriterWrapper × Response :=
  ({ wr with StatusCode := statusCode }, w.writeHeader statusCode)

/-- A line of the log emitted by the logging stage: method, path, status
code, elapsed time (nanoseconds; the source prints it scaled). -/
structure LogEntry where
  method : String
  path : String
  status : Int
  costNs : Nat
deriving Repr, DecidableEq

/-- `main.go` lines 102-121: one request through the middleware returned by
`LogMiddleware`.  `tStart` and `tEnd` are the `time.Now()` readings at
entry and after `next` returns.  The source builds `wrappedWriter` around
`w` but then calls `next(w, r)` — the raw writer, not the wrapper — so no
`WriteHeader` call ever reaches the wrapper and its `StatusCode` still
holds the zero value 0 when the log line is written. -/
def LogMiddlewareRun (next : Handler) (r : Request) (w : Response)
    (tStart tEnd : Time) : Response × LogEntry :=
  let wrappedWriter : ResponseWriterWrapper := { StatusCode := 0 }
  let w1 := next r w
  (w1,
    { method := r.method, path := r.path, status := wrappedWriter.StatusCode,
      costNs := tEnd - tStart })

/-- Claim C7 — evaluation at a failing input.  A GET to `/p` whose handler
writes status 200: the log entry does record the method, the path and the
elapsed time, but its status field is 0, not the status 200 actually
written to the response, because `LogMiddleware` passes the raw writer
(not the wrapper) to `next`. -/
theorem claim_C7_bug :
    (LogMiddlewareRun okHandler sampleReq Response.empty 0 5).1.status = 200 ∧
      (LogMiddlewareRun okHandler sampleReq Response.empty 0 5).2 =
        { method := "GET", path := "/p", status := 0, costNs := 5 } ∧
      (LogMiddlewareRun okHandler sampleReq Response.empty 0 5).2.status ≠
        (LogMiddlewareRun okHandler sampleReq Response.empty 0 5).1.status := by
  decide

/-! The timeout stage (`main.go`) and its wiring in `main`. -/

/-- A downstream handler together with the wall-clock duration (in
nanoseconds) its execution takes. -/
abbrev TimedHandler := Request → Response → Response × Nat

/-- `main.go` lines 130-160: the middleware returned by
`TimeoutMiddleware(timeout)`, with the downstream goroutine's running time
made explicit.  The `select` between `done` and `ctx.Done()` yields the
downstream result when it finishes before the `timeout` deadline, and
otherwise writes `http.Error(w, "Request timeout", 504)`.  (A finish at
exactly the deadline is a race in Go; the inputs considered here avoid
the tie.) -/
def TimeoutMiddlewareRun (timeout : Nat) (next : TimedHandler) (r : Request)
    (w : Response) : Response :=
  let res := next r w
  if res.2 < timeout then res.1
  else httpError w "Request timeout" 504

/-- `main.go` line 38: `main` wires `TimeoutMiddleware(3 * time.Second)`,
a hardcoded duration, not `config.Timeout`. -/
def wiredTimeout : Nat := 3 * second

/-- A configuration file that sets nothing, so that every default of
`loadConfig` applies. -/
def zeroConfig : Config :=
  { Port := "", ApiKeys := [], NoAuthRoutes := [], Routes := [],
    GlobalRateLimit := { Cap := 0, Rate := 0 }, Timeout := 0 }

/-- A backend call that takes 2 seconds and then writes 200. -/
def slowOkHandler : TimedHandler := fun _ w => (w.writeHeader 200, 2 * second)

/-- A backend call that takes 4 seconds and then writes 200. -/
def slowerOkHandler : TimedHandler := fun _ w => (w.writeHeader 200, 4 * second)

/-- Claim C8 — evaluation at a failing input.  The loaded configuration
defaults the timeout to 1 second, but `main` wires the timeout stage with
a hardcoded 3 seconds, so a request whose downstream takes 2 seconds —
longer than the configured timeout — is answered 200, not 504.  (The stage
itself does produce 504 once the hardcoded deadline is exceeded, e.g. at
4 seconds.) -/
theorem claim_C8_bug :
    (loadConfigDefaults zeroConfig).Timeout = second ∧
      wiredTimeout = 3 * second ∧
      2 * second > (loadConfigDefaults zeroConfig).Timeout ∧
      (TimeoutMiddlewareRun wiredTimeout slowOkHandler sampleReq Response.empty).status = 200 ∧
      (TimeoutMiddlewareRun wiredTimeout slowOkHandler sampleReq Response.empty).status ≠ 504 ∧
      (TimeoutMiddlewareRun wiredTimeout slowerOkHandler sampleReq Response.empty).status =
        504 := by
  decide

end GoGateway
